import Mathlib

/-!
Verification of the playback-session subsystem and authenticated request
layer of a terminal media client (source: src/jellyfin.rs), against its
natural-language specification.  Pure fragments of the Rust code are
embedded as Lean functions; the effectful monitor loop is embedded as a
fold over the list of inbound control-socket events, with oracles for
the outcomes of the surrounding IO (connect attempts, HTTP sends).
-/

namespace Jellytui

/-- Catalog entry, embedding the fields of `MediaItem` that the verified
operations read (`id`, `series_id`, `parent_index_number`,
`index_number`); the remaining source fields (overview, ratings,
runtime, ...) are never consulted by the embedded functions. -/
structure MediaItem where
  id : String
  name : String
  type_ : String
  series_id : Option String
  series_name : Option String
  parent_index_number : Option Int
  index_number : Option Int
deriving DecidableEq

/-- Comparator of `get_episodes_from_series`: lexicographic order on
`(parent_index_number.unwrap_or(0), index_number.unwrap_or(0))`. -/
def keyLE (a b : MediaItem) : Bool :=
  decide (a.parent_index_number.getD 0 < b.parent_index_number.getD 0 ∨
    (a.parent_index_number.getD 0 = b.parent_index_number.getD 0 ∧
      a.index_number.getD 0 ≤ b.index_number.getD 0))

/-- Stable insertion of an element in front of the first entry it is
`keyLE`-below. -/
def insertEp (a : MediaItem) : List MediaItem → List MediaItem
  | [] => [a]
  | b :: bs => if keyLE a b then a :: b :: bs else b :: insertEp a bs

/-- Stable sort by `keyLE`; extensionally equal to the stable
`sort_by` on the episode key used in the source. -/
def sortEpisodes : List MediaItem → List MediaItem
  | [] => []
  | a :: as => insertEp a (sortEpisodes as)

/-- `Jellyfin::get_episodes_from_series`: all catalog values whose
`series_id` equals the given identifier, sorted by
`(parent_index_number.unwrap_or(0), index_number.unwrap_or(0))`.
The catalog is a hash map in the source; it is embedded as the list of
its values (iteration order is immaterial after the stable sort
whenever the sort keys are distinct, as in every input considered
here). -/
def get_episodes_from_series (items : List MediaItem) (sid : String) : List MediaItem :=
  sortEpisodes (items.filter (fun it => decide (it.series_id = some sid)))

/-- The next-item scan of the `end-file` arm of `monitor_playback`:
the first episode of the series, in sorted order, whose
`index_number` equals the current one plus 1, or whose
`parent_index_number` equals the current one plus 1 and whose
`index_number` is 1 (`A || B && C` parses as `A || (B && C)`). -/
def resolve_next (items : List MediaItem) (item : MediaItem) (sid : String) : Option MediaItem :=
  (get_episodes_from_series items sid).find? (fun ep =>
    decide (ep.index_number = item.index_number.map (fun i => i + 1) ∨
      (ep.parent_index_number = item.parent_index_number.map (fun i => i + 1) ∧
        ep.index_number = some 1)))

/-- Sample series: season 1 episode 1. -/
def s1e1 : MediaItem :=
  { id := "e11", name := "Pilot", type_ := "Episode", series_id := some "ser"
    series_name := some "Foo", parent_index_number := some 1, index_number := some 1 }

/-- Sample series: season 1 episode 2. -/
def s1e2 : MediaItem :=
  { id := "e12", name := "Second", type_ := "Episode", series_id := some "ser"
    series_name := some "Foo", parent_index_number := some 1, index_number := some 2 }

/-- Sample series: season 2 episode 1. -/
def s2e1 : MediaItem :=
  { id := "e21", name := "Opener", type_ := "Episode", series_id := some "ser"
    series_name := some "Foo", parent_index_number := some 2, index_number := some 1 }

/-- A movie: no series identifier, no season or episode index. -/
def movieItem : MediaItem :=
  { id := "mov", name := "Film", type_ := "Movie", series_id := none
    series_name := none, parent_index_number := none, index_number := none }

/-- Catalog holding exactly the series S1E1, S1E2, S2E1. -/
def demoCatalog : List MediaItem := [s1e1, s1e2, s2e1]

/-- Second sample series, season 1 episode 2. -/
def b12 : MediaItem :=
  { id := "b12", name := "B12", type_ := "Episode", series_id := some "serB"
    series_name := some "Bar", parent_index_number := some 1, index_number := some 2 }

/-- Second sample series, season 2 episode 1. -/
def b21 : MediaItem :=
  { id := "b21", name := "B21", type_ := "Episode", series_id := some "serB"
    series_name := some "Bar", parent_index_number := some 2, index_number := some 1 }

/-- Second sample series, season 3 episode 3. -/
def b33 : MediaItem :=
  { id := "b33", name := "B33", type_ := "Episode", series_id := some "serB"
    series_name := some "Bar", parent_index_number := some 3, index_number := some 3 }

/-- Catalog holding the episodes S1E2, S2E1, S3E3 of a second series. -/
def demoCatalogB : List MediaItem := [b12, b21, b33]

example : resolve_next demoCatalog s1e1 "ser" = some s1e2 := by decide
example : resolve_next demoCatalog s1e2 "ser" = some s2e1 := by decide
example : resolve_next demoCatalog s2e1 "ser" = some s1e2 := by decide
example : resolve_next demoCatalogB b12 "serB" = some b21 := by decide

/-- Monitor-loop state: `last_position` (ticks) and `last_update`
(wall clock, milliseconds since monitor entry; the source stores an
`Instant` taken at function entry and compares elapsed durations). -/
structure MonitorState where
  lastPosition : Int
  lastUpdate : Nat
deriving DecidableEq

/-- An inbound control-socket frame, after the JSON dispatch of the
read loop.  `malformed` covers unparseable buffers and frames without
an `event` field; `pauseSkipped`/`positionSkipped` cover
property-change frames whose `data` field is missing or has the wrong
type; `positionChange` carries the wall clock (ms since monitor
entry) at which the frame is processed and the position converted to
ticks (`(seconds * 10_000_000.0) as i64` in the source). -/
inductive MpvEvent where
  | malformed
  | otherEvent
  | pauseSkipped
  | positionSkipped
  | pauseChange (paused : Bool)
  | positionChange (now : Nat) (ticks : Int)
  | endFile (reason : String)
deriving DecidableEq

/-- An outbound HTTP call issued by the monitor: pause-state progress
update, throttled position progress update, or the stop
notification. -/
inductive Push where
  | pause (itemId : String) (positionTicks : Int) (paused : Bool)
  | progress (itemId : String) (positionTicks : Int)
  | stopped (itemId : String) (positionTicks : Int)
deriving DecidableEq

/-- How `monitor_playback` ends: returning `Ok(next)`, or unwinding
with the panic of `item.series_id.as_deref().unwrap()` on an item
without a series identifier. -/
inductive MonitorResult where
  | finished (next : Option MediaItem)
  | panicked
deriving DecidableEq

/-- The read loop of `monitor_playback`, folded over the inbound
frames; returns the outbound calls in order and the way the function
ends.  `stoppedFails` is the oracle for the outcome of the final
stop notification (both branches of the source's
`if let Err(e) = ... { eprintln!(...) }` fall through to
`Ok(None)`, which the two identical arms of the `if` mirror). -/
def monitorLoop (items : List MediaItem) (item : MediaItem) (stoppedFails : Bool) :
    MonitorState → List MpvEvent → List Push × MonitorResult
  | st, [] =>
    ([Push.stopped item.id st.lastPosition],
      if stoppedFails then MonitorResult.finished none else MonitorResult.finished none)
  | st, MpvEvent.malformed :: rest => monitorLoop items item stoppedFails st rest
  | st, MpvEvent.otherEvent :: rest => monitorLoop items item stoppedFails st rest
  | st, MpvEvent.pauseSkipped :: rest => monitorLoop items item stoppedFails st rest
  | st, MpvEvent.positionSkipped :: rest => monitorLoop items item stoppedFails st rest
  | st, MpvEvent.pauseChange paused :: rest =>
    (Push.pause item.id st.lastPosition paused ::
        (monitorLoop items item stoppedFails st rest).1,
      (monitorLoop items item stoppedFails st rest).2)
  | st, MpvEvent.positionChange now ticks :: rest =>
    if (ticks - st.lastPosition).natAbs < 50000000 ∨ now - st.lastUpdate < 10000 then
      monitorLoop items item stoppedFails st rest
    else
      (Push.progress item.id ticks ::
          (monitorLoop items item stoppedFails { lastPosition := ticks, lastUpdate := now } rest).1,
        (monitorLoop items item stoppedFails { lastPosition := ticks, lastUpdate := now } rest).2)
  | st, MpvEvent.endFile reason :: rest =>
    if reason = "eof" then
      match item.series_id with
      | none => ([], MonitorResult.panicked)
      | some sid => ([], MonitorResult.finished (resolve_next items item sid))
    else monitorLoop items item stoppedFails st rest

/-- The connect-retry loop of `monitor_playback`: one attempt per
iteration (`connectOk t` tells whether the attempt at `t` ms after
monitor entry succeeds), returning `Ok(None)` — modelled `none` —
once a failed attempt finds 10 000 ms already elapsed, and sleeping
50 ms between attempts. -/
def connectLoop (connectOk : Nat → Bool) (elapsed : Nat) : Option Nat :=
  if connectOk elapsed then some elapsed
  else if 10000 ≤ elapsed then none
  else connectLoop connectOk (elapsed + 50)
termination_by 10000 - elapsed
decreasing_by omega

/-- `monitor_playback`: connect phase, subscription write (whose
failure yields `Ok(None)`), then the read loop from the initial state
`last_position = 0`, `last_update =` monitor entry. -/
def monitor_playback (items : List MediaItem) (item : MediaItem) (connectOk : Nat → Bool)
    (writeOk : Bool) (stoppedFails : Bool) (events : List MpvEvent) :
    List Push × MonitorResult :=
  match connectLoop connectOk 0 with
  | none => ([], MonitorResult.finished none)
  | some _ =>
    if writeOk then monitorLoop items item stoppedFails { lastPosition := 0, lastUpdate := 0 } events
    else ([], MonitorResult.finished none)

/-- What `play_media` hands back to its caller. -/
inductive PlayOutcome where
  | ok (next : Option MediaItem)
  | removeErr
  | panicked
deriving DecidableEq

/-- The tail of `play_media` after `monitor_playback` returns:
`std::fs::remove_file(socket_path)?` — a panic unwinds before the
removal; otherwise the removal is attempted unconditionally, erroring
(and propagating via `?`) when the file does not exist.  The second
component is whether the socket file exists afterwards. -/
def play_media_finish (res : MonitorResult) (socketFileExists : Bool) : PlayOutcome × Bool :=
  match res with
  | MonitorResult.panicked => (PlayOutcome.panicked, socketFileExists)
  | MonitorResult.finished next =>
    if socketFileExists then (PlayOutcome.ok next, false) else (PlayOutcome.removeErr, false)

/-- `play_media` from the hand-off to the monitor onwards: the pushes
issued, the outcome for the caller, and whether the socket file still
exists.  `socketFileExists` is whether the socket file is on disk when
the monitor returns. -/
def play_media (items : List MediaItem) (item : MediaItem) (connectOk : Nat → Bool)
    (writeOk : Bool) (stoppedFails : Bool) (events : List MpvEvent)
    (socketFileExists : Bool) : List Push × PlayOutcome × Bool :=
  ((monitor_playback items item connectOk writeOk stoppedFails events).1,
    play_media_finish (monitor_playback items item connectOk writeOk stoppedFails events).2
      socketFileExists)

example :
    monitorLoop demoCatalog movieItem false { lastPosition := 0, lastUpdate := 0 }
      [MpvEvent.endFile "eof"] = ([], MonitorResult.panicked) := by decide

example :
    (monitorLoop demoCatalog s1e1 false { lastPosition := 0, lastUpdate := 0 }
      [MpvEvent.positionChange 10000 1000000000,
        MpvEvent.positionChange 20000 200000000]).1 =
    [Push.progress "e11" 1000000000, Push.progress "e11" 200000000,
      Push.stopped "e11" 200000000] := by decide

instance {ε α : Type} [DecidableEq ε] [DecidableEq α] : DecidableEq (Except ε α) := fun a b =>
  match a, b with
  | Except.error x, Except.error y => decidable_of_iff (x = y) (by simp)
  | Except.ok x, Except.ok y => decidable_of_iff (x = y) (by simp)
  | Except.error _, Except.ok _ => Decidable.isFalse (by simp)
  | Except.ok _, Except.error _ => Decidable.isFalse (by simp)

/-- A tracked player handle, by the outcomes of the `kill` and `wait`
calls `cleanup` would issue on it. -/
structure ProcHandle where
  kill : Except String Unit
  wait : Except String Unit
deriving DecidableEq

/-- The `for` loop of `cleanup`: `process.kill()?; process.wait()?`
for each handle in order.  Returns the loop's outcome and the number
of handles on which a `kill` was attempted. -/
def cleanupLoop : List ProcHandle → Except String Unit × Nat
  | [] => (Except.ok (), 0)
  | p :: rest =>
    match p.kill with
    | Except.error e => (Except.error e, 1)
    | Except.ok _ =>
      match p.wait with
      | Except.error e => (Except.error e, 1)
      | Except.ok _ => ((cleanupLoop rest).1, (cleanupLoop rest).2 + 1)

/-- `Jellyfin::cleanup`: run the loop; only when it completes is
`processes.clear()` reached (the `?` operator returns early on the
first failure, leaving the collection untouched).  Returns the
result, the collection afterwards, and the number of handles
attempted. -/
def cleanup (ps : List ProcHandle) : Except String Unit × List ProcHandle × Nat :=
  match cleanupLoop ps with
  | (Except.ok _, n) => (Except.ok (), [], n)
  | (Except.error e, n) => (Except.error e, ps, n)

/-- A handle whose `kill` fails. -/
def badProc : ProcHandle := { kill := Except.error "kill failed", wait := Except.ok () }

/-- A handle whose `kill` and `wait` succeed. -/
def goodProc : ProcHandle := { kill := Except.ok (), wait := Except.ok () }

example : cleanup [badProc, goodProc] =
    (Except.error "kill failed", [badProc, goodProc], 1) := by decide
example : cleanup [] = (Except.ok (), [], 0) := by decide

/-- Stored session credentials (the fields beyond the token are not
read by the embedded operations). -/
structure AuthState where
  token : String
deriving DecidableEq

/-- The mutable client state relevant to the request layer: the
`auth : Option<AuthResponse>` field. -/
structure ClientState where
  auth : Option AuthState
deriving DecidableEq

/-- Outcome of one HTTP send: a response with a status code, or a
transport error (`send()?`). -/
inductive HttpResult where
  | resp (status : Nat)
  | netErr (msg : String)
deriving DecidableEq

/-- Outcome of `request` for its caller: the `unwrap` panic on a
missing token, a propagated error, or `Ok(response)` with the
response's status. -/
inductive ReqOut where
  | panicked
  | err (msg : String)
  | ok (status : Nat)
deriving DecidableEq

/-- `Jellyfin::authenticate`, by the outcome of the authentication
round-trip: on any failure (transport, 401, 403, body parse) the
function returns the error before the assignment, leaving `auth`
unchanged; on success `auth` is replaced wholesale. -/
def authenticate (st : ClientState) (outcome : Except String AuthState) :
    ClientState × Except String Unit :=
  match outcome with
  | Except.error m => (st, Except.error m)
  | Except.ok a => ({ auth := some a }, Except.ok ())

/-- `Jellyfin::request`: attach the current token
(`self.auth.as_ref().unwrap()` — a panic when `auth` is `None`),
send; any status other than 401 is returned as `Ok`; on 401,
re-authenticate (propagating its failure) and send once more,
returning that response as `Ok` whatever its status.  `send i` is the
outcome of the `i`-th send of this operation; the third component
counts the sends performed. -/
def request (st : ClientState) (send : Nat → HttpResult)
    (authOutcome : Except String AuthState) : ClientState × ReqOut × Nat :=
  match st.auth with
  | none => (st, ReqOut.panicked, 0)
  | some _ =>
    match send 0 with
    | HttpResult.netErr m => (st, ReqOut.err m, 1)
    | HttpResult.resp s =>
      if s ≠ 401 then (st, ReqOut.ok s, 1)
      else
        match authenticate st authOutcome with
        | (_, Except.error m) => (st, ReqOut.err m, 1)
        | (st', Except.ok _) =>
          match send 1 with
          | HttpResult.netErr m => (st', ReqOut.err m, 2)
          | HttpResult.resp s2 => (st', ReqOut.ok s2, 2)

/-- `Jellyfin::new`, reduced to its authentication effect: the client
value exists only when the startup `authenticate` succeeded (on
failure the process exits), and it then stores the credentials just
issued. -/
def newClient (authOutcome : Except String AuthState) : Option ClientState :=
  match authenticate { auth := none } authOutcome with
  | (st, Except.ok _) => some st
  | (_, Except.error _) => none

/-- A sequence of `request` calls, each with its own send and
re-authentication oracles, threading the client state. -/
def runRequests (st : ClientState) :
    List ((Nat → HttpResult) × Except String AuthState) → ClientState × List ReqOut
  | [] => (st, [])
  | (send, ao) :: rest =>
    ((runRequests (request st send ao).1 rest).1,
      (request st send ao).2.1 :: (runRequests (request st send ao).1 rest).2)

example : request { auth := some { token := "t" } } (fun _ => HttpResult.resp 401)
    (Except.ok { token := "t2" }) =
    ({ auth := some { token := "t2" } }, ReqOut.ok 401, 2) := by decide

theorem connectLoop_eq (c : Nat → Bool) (e : Nat) :
    connectLoop c e =
      if c e then some e else if 10000 ≤ e then none else connectLoop c (e + 50) := by
  rw [connectLoop]

theorem connectLoop_timeout (c : Nat → Bool) (h : ∀ t, c t = false) :
    ∀ (n e : Nat), 10050 ≤ e + n → connectLoop c e = none := by
  intro n
  induction n with
  | zero =>
    intro e he
    rw [connectLoop_eq]
    simp [h e, show 10000 ≤ e by omega]
  | succ n ih =>
    intro e he
    rw [connectLoop_eq]
    by_cases h10 : 10000 ≤ e
    · simp [h e, h10]
    · simp [h e, h10]
      exact ih (e + 50) (by omega)

theorem connectLoop_never (c : Nat → Bool) (h : ∀ t, c t = false) :
    connectLoop c 0 = none :=
  connectLoop_timeout c h 10050 0 (by omega)

theorem connectLoop_first (c : Nat → Bool) (h : c 0 = true) :
    connectLoop c 0 = some 0 := by
  rw [connectLoop_eq]
  simp [h]

theorem monitor_playback_timeout (items : List MediaItem) (item : MediaItem)
    (c : Nat → Bool) (w sf : Bool) (events : List MpvEvent) (h : ∀ t, c t = false) :
    monitor_playback items item c w sf events = ([], MonitorResult.finished none) := by
  unfold monitor_playback
  rw [connectLoop_never c h]

theorem monitor_playback_connected (items : List MediaItem) (item : MediaItem)
    (sf : Bool) (events : List MpvEvent) (c : Nat → Bool) (h : c 0 = true) :
    monitor_playback items item c true sf events =
      monitorLoop items item sf { lastPosition := 0, lastUpdate := 0 } events := by
  unfold monitor_playback
  rw [connectLoop_first c h]
  simp

/-- Claim C1 (corrected): next-episode resolution scans the episodes of
the current item's series in (season, episode) order and takes the
first whose episode index is current+1 or whose season index is
current season+1 with episode index 1; for the series S1E1, S1E2,
S2E1 this yields S1E2 after S1E1 and S2E1 after S1E2, but after S2E1
it yields S1E2 — not none — because the episode-index match is not
restricted to the current season or to later episodes; nor is the
episode-index disjunct given priority over the season-successor
disjunct, as the second catalog shows. -/
theorem next_episode_resolution_amended :
    (monitorLoop demoCatalog s1e1 false { lastPosition := 0, lastUpdate := 0 }
      [MpvEvent.endFile "eof"]).2 = MonitorResult.finished (some s1e2) ∧
    (monitorLoop demoCatalog s1e2 false { lastPosition := 0, lastUpdate := 0 }
      [MpvEvent.endFile "eof"]).2 = MonitorResult.finished (some s2e1) ∧
    (monitorLoop demoCatalog s2e1 false { lastPosition := 0, lastUpdate := 0 }
      [MpvEvent.endFile "eof"]).2 = MonitorResult.finished (some s1e2) ∧
    resolve_next demoCatalogB b12 "serB" = some b21 := by decide

/-- Claim C1 counterexample: resolving after S2E1 — the last episode of
the series S1E1, S1E2, S2E1 — yields S1E2 (whose episode index is
1 + 1 = 2), not "no next item" as claimed. -/
theorem next_episode_after_last_not_none :
    resolve_next demoCatalog s2e1 "ser" = some s1e2 ∧
    resolve_next demoCatalog s2e1 "ser" ≠ none := by decide

/-- Claim C2 (code bug): on an end-of-file notification with reason
"eof" for an item without a series identifier (a movie), the monitor
evaluates `item.series_id.as_deref().unwrap()` and panics instead of
returning a result. -/
theorem movie_eof_panics :
    monitorLoop demoCatalog movieItem false { lastPosition := 0, lastUpdate := 0 }
      [MpvEvent.endFile "eof"] = ([], MonitorResult.panicked) := by decide

/-- Claim C3 (confirmed): on a position property-change event a
progress push is issued if and only if the absolute change since the
last reported position is at least 50 000 000 ticks (5 s of media
time) and at least 10 000 ms of wall clock have elapsed since the
previous push (the source's skip guard
`|Δ| < 5 s || elapsed < 10 s` is the De Morgan dual); on a push the
last-reported position and timestamp become the event's, otherwise
the event is skipped with the state unchanged. -/
theorem position_push_iff (items : List MediaItem) (item : MediaItem) (sf : Bool)
    (st : MonitorState) (now : Nat) (ticks : Int) (rest : List MpvEvent) :
    monitorLoop items item sf st (MpvEvent.positionChange now ticks :: rest) =
      if 50000000 ≤ (ticks - st.lastPosition).natAbs ∧ 10000 ≤ now - st.lastUpdate then
        (Push.progress item.id ticks ::
            (monitorLoop items item sf { lastPosition := ticks, lastUpdate := now } rest).1,
          (monitorLoop items item sf { lastPosition := ticks, lastUpdate := now } rest).2)
      else monitorLoop items item sf st rest := by
  by_cases hc : 50000000 ≤ (ticks - st.lastPosition).natAbs ∧ 10000 ≤ now - st.lastUpdate
  · rw [if_pos hc]
    have hskip : ¬((ticks - st.lastPosition).natAbs < 50000000 ∨ now - st.lastUpdate < 10000) := by
      omega
    simp [monitorLoop, hskip]
  · rw [if_neg hc]
    have hskip : (ticks - st.lastPosition).natAbs < 50000000 ∨ now - st.lastUpdate < 10000 := by
      omega
    simp [monitorLoop, hskip]

/-- Claim C4 (corrected): when the control socket never becomes
connectable, the monitor returns "no next item" after the 10-second
retry window without issuing any request and without error, but
`play_media` then runs `std::fs::remove_file(socket_path)?`: the
caller receives `Ok(None)` only when the socket file exists to be
removed, and receives the removal error when the player never created
the file. -/
theorem connect_timeout_soft_amended (items : List MediaItem) (item : MediaItem)
    (c : Nat → Bool) (w sf : Bool) (events : List MpvEvent) (socketEx : Bool)
    (h : ∀ t, c t = false) :
    monitor_playback items item c w sf events = ([], MonitorResult.finished none) ∧
    (play_media items item c w sf events socketEx).2.1 =
      (if socketEx then PlayOutcome.ok none else PlayOutcome.removeErr) := by
  have hm := monitor_playback_timeout items item c w sf events h
  refine ⟨hm, ?_⟩
  cases socketEx <;> simp [play_media, hm, play_media_finish]

/-- Claim C4 witness: the amended behavior at a session whose connect
attempts all fail and whose socket file exists. -/
theorem connect_timeout_soft_witness :
    monitor_playback demoCatalog s1e1 (fun _ => false) true false [] =
      ([], MonitorResult.finished none) ∧
    (play_media demoCatalog s1e1 (fun _ => false) true false [] true).2.1 =
      (if true then PlayOutcome.ok none else PlayOutcome.removeErr) :=
  connect_timeout_soft_amended demoCatalog s1e1 (fun _ => false) true false [] true
    (fun _ => rfl)

/-- Claim C4 counterexample: with no connect attempt ever succeeding
and the socket file never created, `play_media` surfaces the
`remove_file` failure as an error instead of the claimed soft
"no next item" outcome. -/
theorem connect_timeout_error_counterexample :
    (play_media demoCatalog s1e1 (fun _ => false) true false [] false).2.1 =
      PlayOutcome.removeErr ∧
    PlayOutcome.removeErr ≠ PlayOutcome.ok none := by
  have hm := monitor_playback_timeout demoCatalog s1e1 (fun _ => false) true false []
    (fun _ => rfl)
  have h2 : (monitor_playback demoCatalog s1e1 (fun _ => false) true false []).2 =
      MonitorResult.finished none := by rw [hm]
  refine ⟨?_, fun hc => PlayOutcome.noConfusion hc⟩
  show (play_media_finish
    (monitor_playback demoCatalog s1e1 (fun _ => false) true false []).2 false).1 =
    PlayOutcome.removeErr
  rw [h2]
  rfl

/-- Claim C6 (corrected): the best-effort "stopped" notification with
the last known position is sent exactly on the path where the read
loop ends (socket close or read error), and the session result is
"no next item" whether or not that notification fails; on the
end-of-stream return path and on the connect-timeout path no
"stopped" notification — indeed no request at all — is sent. -/
theorem stopped_notification_amended (items : List MediaItem) (item : MediaItem)
    (st : MonitorState) (sf w : Bool) (events : List MpvEvent) :
    monitorLoop items item sf st [] =
      ([Push.stopped item.id st.lastPosition], MonitorResult.finished none) ∧
    (monitorLoop items item sf st (MpvEvent.endFile "eof" :: events)).1 = [] ∧
    (monitor_playback items item (fun _ => false) w sf events).1 = [] := by
  refine ⟨?_, ?_, ?_⟩
  · cases sf <;> simp [monitorLoop]
  · cases hsid : item.series_id <;> simp [monitorLoop, hsid]
  · rw [monitor_playback_timeout items item (fun _ => false) w sf events (fun _ => rfl)]

/-- Claim C6 counterexample: a session that ends through the
end-of-stream notification returns its result with no outbound
request at all — in particular no "stopped" notification is sent on
that path, contrary to the claim that every path sends one. -/
theorem stopped_missing_on_eof_counterexample :
    (monitorLoop demoCatalog s1e1 false { lastPosition := 0, lastUpdate := 0 }
      [MpvEvent.endFile "eof"]).1 = [] ∧
    (monitorLoop demoCatalog s1e1 false { lastPosition := 0, lastUpdate := 0 }
      [MpvEvent.endFile "eof"]).2 = MonitorResult.finished (some s1e2) := by decide

/-- The positions carried by the position-triggered progress pushes of
a session, in order. -/
def progressPositions : List Push → List Int
  | [] => []
  | Push.progress _ t :: ps => t :: progressPositions ps
  | Push.pause _ _ _ :: ps => progressPositions ps
  | Push.stopped _ _ :: ps => progressPositions ps

/-- Claim C7 (corrected): the positions of consecutive
position-triggered progress pushes differ by at least 50 000 000
ticks (5 s of media time) in absolute value — and the first differs
from the initial reported position by as much — but the sequence is
not necessarily non-decreasing: a backward seek of at least 5 s of
media time at least 10 s after the previous push produces a push with
a smaller position. -/
theorem progress_push_gap_chain (items : List MediaItem) (item : MediaItem) (sf : Bool)
    (events : List MpvEvent) : ∀ st : MonitorState,
    List.Chain (fun a b => 50000000 ≤ (b - a).natAbs) st.lastPosition
      (progressPositions (monitorLoop items item sf st events).1) := by
  induction events with
  | nil => intro st; cases sf <;> simp [monitorLoop, progressPositions]
  | cons e rest ih =>
    intro st
    cases e with
    | malformed => simpa [monitorLoop] using ih st
    | otherEvent => simpa [monitorLoop] using ih st
    | pauseSkipped => simpa [monitorLoop] using ih st
    | positionSkipped => simpa [monitorLoop] using ih st
    | pauseChange paused => simpa [monitorLoop, progressPositions] using ih st
    | positionChange now ticks =>
      by_cases hc : (ticks - st.lastPosition).natAbs < 50000000 ∨ now - st.lastUpdate < 10000
      · simpa [monitorLoop, hc] using ih st
      · simp only [monitorLoop, hc, if_false, progressPositions]
        exact List.Chain.cons (by omega) (ih { lastPosition := ticks, lastUpdate := now })
    | endFile reason =>
      by_cases hr : reason = "eof"
      · cases hsid : item.series_id <;> simp [monitorLoop, hr, hsid, progressPositions]
      · simpa [monitorLoop, hr] using ih st

/-- Claim C7 counterexample: a forward position event at 100 s
followed by a backward seek to 20 s (each past both throttle gates)
produces two progress pushes whose reported positions decrease. -/
theorem progress_decreasing_counterexample :
    (monitorLoop demoCatalog s1e1 false { lastPosition := 0, lastUpdate := 0 }
      [MpvEvent.positionChange 10000 1000000000,
        MpvEvent.positionChange 20000 200000000]).1 =
      [Push.progress "e11" 1000000000, Push.progress "e11" 200000000,
        Push.stopped "e11" 200000000] ∧
    ¬((1000000000 : Int) ≤ 200000000) := by decide

/-- Claim C8 (corrected): whenever the monitor returns — normal stop
via socket close, end of stream on an item with a series identifier,
connect timeout, subscription-write failure — the socket-file removal
is attempted unconditionally and the path no longer exists on disk
afterwards (even when the removal itself fails because the file was
never created); but when the monitor panics (end of stream on an item
without a series identifier) the removal is skipped and the file
survives the session. -/
theorem socket_file_after_play (items : List MediaItem) (item : MediaItem) (c : Nat → Bool)
    (w sf : Bool) (events : List MpvEvent) (socketEx : Bool) :
    (play_media items item c w sf events socketEx).2.2 =
      (if (monitor_playback items item c w sf events).2 = MonitorResult.panicked
        then socketEx else false) := by
  unfold play_media
  cases hr : (monitor_playback items item c w sf events).2 with
  | panicked => simp [play_media_finish]
  | finished next => cases socketEx <;> simp [play_media_finish]

/-- Claim C8 counterexample: an item without a series identifier played
to end of stream makes the monitor panic, `remove_file` is never
reached, and the socket file still exists after the session. -/
theorem socket_file_panic_counterexample :
    (play_media demoCatalog movieItem (fun _ => true) true false
      [MpvEvent.endFile "eof"] true).2.2 = true ∧
    (play_media demoCatalog movieItem (fun _ => true) true false
      [MpvEvent.endFile "eof"] true).2.1 = PlayOutcome.panicked := by
  have hm := monitor_playback_connected demoCatalog movieItem false
    [MpvEvent.endFile "eof"] (fun _ => true) rfl
  have h2 : (monitor_playback demoCatalog movieItem (fun _ => true) true false
      [MpvEvent.endFile "eof"]).2 = MonitorResult.panicked := by
    rw [hm]; decide
  constructor
  · show (play_media_finish (monitor_playback demoCatalog movieItem (fun _ => true) true false
      [MpvEvent.endFile "eof"]).2 true).2 = true
    rw [h2]
    rfl
  · show (play_media_finish (monitor_playback demoCatalog movieItem (fun _ => true) true false
      [MpvEvent.endFile "eof"]).2 true).1 = PlayOutcome.panicked
    rw [h2]
    rfl

/-- Claim C5 (corrected): `request` sends at most twice, and sends a
second time exactly when the first response is a 401 and
re-authentication succeeds; the second response is then handed back
to the caller as `Ok` whatever its status — a second consecutive 401
is returned as a response, not surfaced as an error — and no further
retry is attempted; only a transport failure or a failed
re-authentication is surfaced as an error. -/
theorem reauth_retry_amended (st : ClientState) (send : Nat → HttpResult)
    (ao : Except String AuthState) :
    (request st send ao).2.2 ≤ 2 ∧
    ((request st send ao).2.2 = 2 ↔
      st.auth.isSome = true ∧ send 0 = HttpResult.resp 401 ∧ ∃ a, ao = Except.ok a) ∧
    (∀ a a2 s2, st.auth = some a → send 0 = HttpResult.resp 401 → ao = Except.ok a2 →
      send 1 = HttpResult.resp s2 →
      request st send ao = ({ auth := some a2 }, ReqOut.ok s2, 2)) := by
  unfold request authenticate
  cases hauth : st.auth with
  | none => simp
  | some a0 =>
    cases hs0 : send 0 with
    | netErr m => simp
    | resp s =>
      by_cases h401 : s = 401
      · subst h401
        cases hao : ao with
        | error m => simp
        | ok a2 =>
          cases hs1 : send 1 with
          | netErr m => simp [hs1]
          | resp s2 => simp [hs1]
      · simp [h401]

/-- Claim C5 witness: a first 401 followed by a successful
re-authentication and a second 401 yields at most two sends and the
second response returned as `Ok 401`. -/
theorem reauth_retry_witness :
    (request { auth := some { token := "t" } } (fun _ => HttpResult.resp 401)
      (Except.ok { token := "t2" })).2.2 ≤ 2 ∧
    request { auth := some { token := "t" } } (fun _ => HttpResult.resp 401)
      (Except.ok { token := "t2" }) =
      ({ auth := some { token := "t2" } }, ReqOut.ok 401, 2) := by
  obtain ⟨h1, _h2, h3⟩ := reauth_retry_amended { auth := some { token := "t" } }
    (fun _ => HttpResult.resp 401) (Except.ok { token := "t2" })
  exact ⟨h1, h3 { token := "t" } { token := "t2" } 401 rfl rfl rfl rfl⟩

/-- Claim C5 counterexample: when the retried operation fails the same
way — a second consecutive 401 — `request` returns `Ok` carrying that
401 response; it is not surfaced to the caller as an error. -/
theorem reauth_second_401_not_error :
    request { auth := some { token := "t" } } (fun _ => HttpResult.resp 401)
      (Except.ok { token := "t2" }) =
      ({ auth := some { token := "t2" } }, ReqOut.ok 401, 2) ∧
    ∀ m, ReqOut.ok 401 ≠ ReqOut.err m := by
  refine ⟨by decide, fun m hc => ReqOut.noConfusion hc⟩

theorem cleanupLoop_all_ok (ps : List ProcHandle)
    (h : ∀ p ∈ ps, p.kill = Except.ok () ∧ p.wait = Except.ok ()) :
    cleanupLoop ps = (Except.ok (), ps.length) := by
  induction ps with
  | nil => rfl
  | cons p rest ih =>
    obtain ⟨hk, hw⟩ := h p (by simp)
    simp [cleanupLoop, hk, hw, ih (fun q hq => h q (by simp [hq]))]

theorem cleanupLoop_first_fail (pre : List ProcHandle)
    (hpre : ∀ q ∈ pre, q.kill = Except.ok () ∧ q.wait = Except.ok ()) :
    ∀ (p : ProcHandle) (post : List ProcHandle) (e : String), p.kill = Except.error e →
      cleanupLoop (pre ++ p :: post) = (Except.error e, pre.length + 1) := by
  induction pre with
  | nil =>
    intro p post e hp
    simp [cleanupLoop, hp]
  | cons q rest ih =>
    intro p post e hp
    obtain ⟨hk, hw⟩ := hpre q (by simp)
    simp [cleanupLoop, hk, hw, ih (fun r hr => hpre r (by simp [hr])) p post e hp]

/-- Claim C9 (corrected): `cleanup` kills and waits on the tracked
handles in order, but a failure on one handle is returned through the
`?` operator at once: the remaining handles are not attempted and the
collection is left uncleared, not cleared as claimed.  When every
kill and wait succeeds the collection is cleared, so invoking
`cleanup` on an empty registry, or a second time after a successful
one, is a no-op success. -/
theorem cleanup_policy_amended (ps : List ProcHandle)
    (h : ∀ p ∈ ps, p.kill = Except.ok () ∧ p.wait = Except.ok ()) :
    cleanup ([] : List ProcHandle) = (Except.ok (), [], 0) ∧
    cleanup ps = (Except.ok (), [], ps.length) ∧
    cleanup (cleanup ps).2.1 = (Except.ok (), [], 0) ∧
    (∀ (pre : List ProcHandle),
      (∀ q ∈ pre, q.kill = Except.ok () ∧ q.wait = Except.ok ()) →
      ∀ (p : ProcHandle) (post : List ProcHandle) (e : String), p.kill = Except.error e →
        cleanup (pre ++ p :: post) = (Except.error e, pre ++ p :: post, pre.length + 1)) := by
  have hok : cleanup ps = (Except.ok (), [], ps.length) := by
    unfold cleanup
    rw [cleanupLoop_all_ok ps h]
  refine ⟨rfl, hok, ?_, ?_⟩
  · rw [hok]
    rfl
  · intro pre hpre p post e hp
    unfold cleanup
    rw [cleanupLoop_first_fail pre hpre p post e hp]

/-- Claim C9 witness: the amended behavior at an all-successful
registry of one handle and at a registry whose first handle fails to
terminate. -/
theorem cleanup_policy_witness :
    cleanup ([] : List ProcHandle) = (Except.ok (), [], 0) ∧
    cleanup [goodProc] = (Except.ok (), [], 1) ∧
    cleanup (cleanup [goodProc]).2.1 = (Except.ok (), [], 0) ∧
    cleanup [badProc, goodProc] =
      (Except.error "kill failed", [badProc, goodProc], 1) := by
  obtain ⟨h1, h2, h3, h4⟩ := cleanup_policy_amended [goodProc]
    (fun p hp => by
      have : p = goodProc := by simpa using hp
      exact this ▸ ⟨rfl, rfl⟩)
  exact ⟨h1, h2, h3, h4 [] (by simp) badProc [goodProc] "kill failed" rfl⟩

/-- Claim C9 counterexample: with two tracked handles whose first
fails to terminate, `cleanup` surfaces the error instead of logging
it, attempts only one of the two handles, and leaves the collection
uncleared. -/
theorem cleanup_abort_counterexample :
    cleanup [badProc, goodProc] =
      (Except.error "kill failed", [badProc, goodProc], 1) ∧
    (1 : Nat) ≠ 2 ∧ [badProc, goodProc] ≠ ([] : List ProcHandle) := by decide

theorem request_preserves_auth (st : ClientState) (send : Nat → HttpResult)
    (ao : Except String AuthState) (h : st.auth.isSome = true) :
    (request st send ao).1.auth.isSome = true ∧
    (request st send ao).2.1 ≠ ReqOut.panicked := by
  unfold request authenticate
  cases hauth : st.auth with
  | none => rw [hauth] at h; simp at h
  | some a0 =>
    cases hs0 : send 0 with
    | netErr m => simp [hauth]
    | resp s =>
      by_cases h401 : s = 401
      · subst h401
        cases hao : ao with
        | error m => simp [hauth]
        | ok a2 =>
          cases hs1 : send 1 with
          | netErr m => simp [hauth, hs1]
          | resp s2 => simp [hauth, hs1]
      · simp [hauth, h401]

theorem runRequests_no_panic
    (ops : List ((Nat → HttpResult) × Except String AuthState)) :
    ∀ st : ClientState, st.auth.isSome = true →
      (runRequests st ops).1.auth.isSome = true ∧
      ReqOut.panicked ∉ (runRequests st ops).2 := by
  induction ops with
  | nil => intro st h; simpa [runRequests] using h
  | cons op rest ih =>
    intro st h
    obtain ⟨send, ao⟩ := op
    obtain ⟨h1, h2⟩ := request_preserves_auth st send ao h
    obtain ⟨ih1, ih2⟩ := ih (request st send ao).1 h1
    refine ⟨by simpa [runRequests] using ih1, ?_⟩
    simp only [runRequests, List.mem_cons]
    rintro (hc | hc)
    · exact h2 hc.symm
    · exact ih2 hc

/-- Claim C10 (confirmed): a successfully constructed client stores
authentication state (construction runs `authenticate` first, and
`authenticate` replaces the state only wholesale on success), and the
state stays present across any sequence of requests, so the token
lookup `self.auth.as_ref().unwrap()` of `request` never reaches its
panic branch. -/
theorem auth_present_invariant (ao0 : Except String AuthState) (st : ClientState)
    (ops : List ((Nat → HttpResult) × Except String AuthState))
    (h : newClient ao0 = some st) :
    st.auth.isSome = true ∧ (runRequests st ops).1.auth.isSome = true ∧
    ReqOut.panicked ∉ (runRequests st ops).2 := by
  have hsome : st.auth.isSome = true := by
    unfold newClient authenticate at h
    cases ao0 with
    | error m => simp at h
    | ok a =>
      simp at h
      rw [← h]
      rfl
  exact ⟨hsome, runRequests_no_panic ops st hsome⟩

/-- Claim C10 witness: a client constructed from a successful
authentication, running one request whose first response is a 401 and
whose re-authentication fails, never reaches the panic branch. -/
theorem auth_present_invariant_witness :
    ({ auth := some { token := "tok" } } : ClientState).auth.isSome = true ∧
    (runRequests { auth := some { token := "tok" } }
      [(fun _ => HttpResult.resp 401, Except.error "down")]).1.auth.isSome = true ∧
    ReqOut.panicked ∉ (runRequests { auth := some { token := "tok" } }
      [(fun _ => HttpResult.resp 401, Except.error "down")]).2 :=
  auth_present_invariant (Except.ok { token := "tok" })
    { auth := some { token := "tok" } }
    [(fun _ => HttpResult.resp 401, Except.error "down")] rfl

end Jellytui
